import Mathlib

/-!
Shallow embedding of the flight-search relay in `src/server.js`
(the `searchFlights` function and its response transform), the most
complete variant in the repository.  JSON values that may be absent are
modelled as `Option`; JavaScript string truthiness (`undefined`, `null`
and `""` are falsy, every non-empty string truthy) is modelled explicitly,
as is numeric truthiness (`0` falsy).  The single outbound HTTP call is
modelled by the `Option SerpQuery` component of the result: `none` means
the upstream provider was never contacted, `some q` means exactly one GET
with query `q` was issued, and the provider's reply is supplied as an
`Except` oracle that is consulted only on that path.
-/

namespace FlightRelay

/-- A string value or a number value, as a JSON output field can be either
(e.g. `flight.price || 'N/A'` yields the number or the string `"N/A"`). -/
inductive SVal where
  | s (v : String)
  | n (v : Nat)
deriving DecidableEq, Repr

/-- JS `x || d` for an optional string field `x` and string default `d`:
`undefined`/absent and `""` are falsy, every other string is truthy. -/
def jsOrStr (x : Option String) (d : String) : String :=
  match x with
  | none => d
  | some v => if v = "" then d else v

/-- JS `x || d` for an optional numeric field `x` and string default `d`:
`undefined` and `0` are falsy. -/
def jsOrNat (x : Option Nat) (d : String) : SVal :=
  match x with
  | none => .s d
  | some v => if v = 0 then .s d else .n v

/-- JS `x || null` for an optional string field. -/
def jsOrNull (x : Option String) : Option String :=
  match x with
  | none => none
  | some v => if v = "" then none else some v

/-- JS truthiness test used by `if (!origin || ...)`: an optional string
parameter is missing when absent or the empty string. -/
def jsMissing (x : Option String) : Bool :=
  match x with
  | none => true
  | some v => v = ""

/-- `pre.isPrefixOfChars l`: `pre` is an initial segment of `l`. -/
def charsHasPre : List Char → List Char → Bool
  | [], _ => true
  | _ :: _, [] => false
  | c :: cs, d :: ds => c = d && charsHasPre cs ds

/-- `charsHasSub needle hay`: `needle` occurs contiguously in `hay`. -/
def charsHasSub (needle : List Char) : List Char → Bool
  | [] => charsHasPre needle []
  | c :: rest => charsHasPre needle (c :: rest) || charsHasSub needle rest

/-- JS `hay.includes(needle)`: substring containment. -/
def strIncludes (hay needle : String) : Bool :=
  charsHasSub needle.toList hay.toList

/-- An airport object inside a provider leg: `{ id, name, time }`, every
field possibly absent.  Accessed in the source as
`leg.departure_airport?.id`, `...?.name`, `...?.time`. -/
structure Airport where
  id : Option String
  name : Option String
  time : Option String
deriving DecidableEq, Repr

/-- A provider flight leg as accessed by the transform: airports, airline,
flight number and duration, each possibly absent. -/
structure Leg where
  departure_airport : Option Airport
  arrival_airport : Option Airport
  airline : Option String
  flight_number : Option String
  duration : Option Nat
deriving DecidableEq, Repr

instance : Inhabited Leg := ⟨⟨none, none, none, none, none⟩⟩

/-- A provider itinerary: `{ flights: [legs...], price }`, the legs list
itself possibly absent. -/
structure Itinerary where
  flights : Option (List Leg)
  price : Option Nat
deriving DecidableEq, Repr

/-- The provider's response body: optional `best_flights`,
`other_flights` and `price_insights`. -/
structure ProviderData where
  best_flights : Option (List Itinerary)
  other_flights : Option (List Itinerary)
  price_insights : Option String
deriving DecidableEq, Repr

/-- The `error.response?.data` object of a failed axios call. -/
structure RespData where
  error : Option String
deriving DecidableEq, Repr

/-- A failed axios call: a message and an optional HTTP response body. -/
structure AxiosErr where
  message : String
  response : Option RespData
deriving DecidableEq, Repr

/-- The query-parameter object sent to the SerpAPI search endpoint.
`return_date` is an `Option` because the source adds that key only for
round-trip searches. -/
structure SerpQuery where
  engine : String
  departure_id : String
  arrival_id : String
  outbound_date : String
  qtype : String
  currency : String
  hl : String
  api_key : String
  return_date : Option String
deriving DecidableEq, Repr

/-- A leg sub-record of the output (`flightData.outbound` /
`flightData.return` in the source). -/
structure LegOut where
  departure_time : String
  arrival_time : String
  departure_airport : String
  arrival_airport : String
  duration : SVal
  airline : String
  flight_number : String
deriving DecidableEq, Repr

/-- One flight record of the output `flights` array.  The one-way branch
sets top-level `departure_time`, `arrival_time` and `duration` and leaves
`ret` absent; the round-trip branch leaves those three absent and sets
`ret`.  `stops` is an `Int` because the source computes it by plain
subtraction. -/
structure FlightData where
  ftype : String
  price : SVal
  is_round_trip : Bool
  airline : String
  flight_number : String
  departure_time : Option String
  arrival_time : Option String
  duration : Option SVal
  stops : Int
  outbound : LegOut
  ret : Option LegOut
deriving DecidableEq, Repr

/-- The parameter bag of a search request. -/
structure SearchParams where
  origin : Option String
  destination : Option String
  departure_date : Option String
  return_date : Option String
deriving DecidableEq, Repr

/-- The relay's result envelope.  Absent JSON keys are `none`. -/
structure SearchResult where
  success : Bool
  error : Option String := none
  fallback_message : Option String := none
  serp_error : Option RespData := none
  route : Option String := none
  date : Option String := none
  return_date : Option String := none
  trip_type : Option String := none
  flights : List FlightData := []
  total_results : Option Nat := none
  price_insights : Option String := none
deriving DecidableEq, Repr

/-- JS `String.prototype.trim`: strip leading and trailing whitespace. -/
def jsTrim (s : String) : String :=
  String.mk (((s.toList.dropWhile Char.isWhitespace).reverse.dropWhile
    Char.isWhitespace).reverse)

/-- `const isRoundTrip = return_date && return_date !== null &&
return_date !== 'null' && return_date.trim() !== ''` (src/server.js:136).
An absent field is `undefined` (falsy); `""` is falsy; the `!== null`
conjunct is subsumed by truthiness. -/
def isRoundTripOf (return_date : Option String) : Bool :=
  match return_date with
  | none => false
  | some s => if s = "" then false
              else if s = "null" then false
              else !(jsTrim s = "")

/-- The predicate of the outbound-leg `find` (src/server.js:191-194):
`leg.departure_airport?.id === origin ||
 leg.departure_airport?.name?.includes(origin)`. -/
def outboundPred (origin : String) (leg : Leg) : Bool :=
  match leg.departure_airport with
  | none => false
  | some a =>
    (match a.id with | some i => i = origin | none => false)
    || (match a.name with | some nm => strIncludes nm origin | none => false)

/-- The predicate of the return-leg `find` (src/server.js:197-203), minus
its `idx > 0` guard:
`leg.departure_airport?.id === destination ||
 leg.arrival_airport?.id === origin ||
 leg.departure_airport?.name?.includes(destination)`. -/
def returnPred (origin destination : String) (leg : Leg) : Bool :=
  (match leg.departure_airport with
   | none => false
   | some a =>
     (match a.id with | some i => i = destination | none => false)
     || (match a.name with | some nm => strIncludes nm destination | none => false))
  || (match leg.arrival_airport with
      | none => false
      | some a => match a.id with | some i => i = origin | none => false)

/-- `flight.flights.find(outboundPred) || flight.flights[0]`
(src/server.js:191-194). -/
def findOutboundLeg (origin : String) (legs : List Leg) : Leg :=
  (legs.find? (outboundPred origin)).getD (legs.headD default)

/-- `flight.flights.find((leg, idx) => idx > 0 && returnPred leg) ||
flight.flights[flight.flights.length - 1]` (src/server.js:197-203). -/
def findReturnLeg (origin destination : String) (legs : List Leg) : Leg :=
  match (legs.enum.find? (fun p => decide (p.1 > 0) && returnPred origin destination p.2)) with
  | some p => p.2
  | none => legs.getLastD default

/-- Build a `LegOut` record from a leg, with the airport-code fallbacks
`dDef`/`aDef` (the source uses `origin`/`destination` for an outbound leg
and `destination`/`origin` for a return leg). -/
def legRecord (dDef aDef : String) (leg : Leg) : LegOut :=
  { departure_time := jsOrStr (leg.departure_airport.bind (·.time)) "N/A"
    arrival_time := jsOrStr (leg.arrival_airport.bind (·.time)) "N/A"
    departure_airport := jsOrStr (leg.departure_airport.bind (·.id)) dDef
    arrival_airport := jsOrStr (leg.arrival_airport.bind (·.id)) aDef
    duration := jsOrNat leg.duration "N/A"
    airline := jsOrStr leg.airline "Unknown"
    flight_number := jsOrStr leg.flight_number "N/A" }

/-- Transform one provider itinerary into an output record
(src/server.js:176-264 for `best`, 271-350 for `other`; the two blocks are
identical up to the `type` tag).  Returns `none` when the itinerary's legs
list is absent or empty (`if (flight.flights && flight.flights.length > 0)`). -/
def itinToFlight (tag origin destination : String) (isRoundTrip : Bool)
    (it : Itinerary) : Option FlightData :=
  match it.flights with
  | none => none
  | some [] => none
  | some (leg0 :: rest) =>
    let legs := leg0 :: rest
    if isRoundTrip && decide (legs.length ≥ 2) then
      let ob := findOutboundLeg origin legs
      let rl := findReturnLeg origin destination legs
      some { ftype := tag
             price := jsOrNat it.price "N/A"
             is_round_trip := isRoundTrip
             airline := jsOrStr ob.airline "Unknown"
             flight_number := jsOrStr ob.flight_number "N/A"
             departure_time := none
             arrival_time := none
             duration := none
             stops := (legs.length : Int) - 2
             outbound := legRecord origin destination ob
             ret := some (legRecord destination origin rl) }
    else
      some { ftype := tag
             price := jsOrNat it.price "N/A"
             is_round_trip := isRoundTrip
             airline := jsOrStr leg0.airline "Unknown"
             flight_number := jsOrStr leg0.flight_number "N/A"
             departure_time := some (jsOrStr (leg0.departure_airport.bind (·.time)) "N/A")
             arrival_time := some (jsOrStr (leg0.arrival_airport.bind (·.time)) "N/A")
             duration := some (jsOrNat leg0.duration "N/A")
             stops := (legs.length : Int) - 1
             outbound := legRecord origin destination leg0
             ret := none }

/-- The whole response transform (src/server.js:170-351): every
`best_flights` itinerary is processed in order, then the first five
`other_flights` itineraries, each surfacing a record exactly when its legs
list is present and non-empty. -/
def parseFlights (origin destination : String) (isRoundTrip : Bool)
    (data : ProviderData) : List FlightData :=
  (match data.best_flights with
   | none => []
   | some l =>
     if l.length > 0 then l.filterMap (itinToFlight "best" origin destination isRoundTrip)
     else [])
  ++
  (match data.other_flights with
   | none => []
   | some l =>
     if l.length > 0 then
       (l.take 5).filterMap (itinToFlight "other" origin destination isRoundTrip)
     else [])

/-- The envelope returned on missing required parameters (src/server.js:116-121). -/
def missingParamsResult : SearchResult :=
  { success := false
    error := some "Missing required parameters: origin, destination, or departure_date" }

/-- The envelope returned when the API key is not configured (src/server.js:123-130). -/
def noKeyResult : SearchResult :=
  { success := false
    error := some "SERP_API_KEY not configured"
    fallback_message := some "MCP server configuration error - API key missing" }

/-- `searchFlights` (src/server.js:110-385).  `apiKey` is the
`SERP_API_KEY` environment value; `provider` is the oracle for the single
outbound HTTP call.  The first component of the result is the query of
that call, `none` when no call is made. -/
def searchFlights (apiKey : Option String) (p : SearchParams)
    (provider : Except AxiosErr ProviderData) :
    Option SerpQuery × SearchResult :=
  if jsMissing p.origin || jsMissing p.destination || jsMissing p.departure_date then
    (none, missingParamsResult)
  else if jsMissing apiKey then
    (none, noKeyResult)
  else
    let o := p.origin.getD ""
    let d := p.destination.getD ""
    let dd := p.departure_date.getD ""
    let rt := isRoundTripOf p.return_date
    let q : SerpQuery :=
      { engine := "google_flights"
        departure_id := o
        arrival_id := d
        outbound_date := dd
        qtype := if rt then "1" else "2"
        currency := "INR"
        hl := "en"
        api_key := apiKey.getD ""
        return_date := if rt then p.return_date else none }
    match provider with
    | .ok data =>
      let fls := parseFlights o d rt data
      (some q,
       { success := true
         route := some (o ++ " to " ++ d)
         date := some dd
         return_date := jsOrNull p.return_date
         trip_type := some (if rt then "round-trip" else "one-way")
         flights := fls
         total_results := some fls.length
         price_insights := jsOrNull data.price_insights })
    | .error e =>
      (some q,
       { success := false
         error := some e.message
         serp_error := e.response
         fallback_message := some
           ("Unable to fetch flights for " ++ o ++ " to " ++ d ++ " on " ++ dd ++ ". "
            ++ jsOrStr (e.response.bind (·.error)) e.message) })

/-! ### Concrete fixtures used by counterexamples and witnesses -/

/-- A leg with every optional field absent. -/
def blankLeg : Leg := ⟨none, none, none, none, none⟩

/-- An itinerary holding exactly one (blank) leg. -/
def oneLegItin : Itinerary := ⟨some [blankLeg], none⟩

/-- A leg departing from an airport whose code is `"DEL"` but whose name
contains `"BOM"`. -/
def nameMatchLeg : Leg :=
  { departure_airport := some ⟨some "DEL", some "BOM Intl", none⟩
    arrival_airport := none, airline := none, flight_number := none, duration := none }

/-- A leg departing from the airport with code `"BOM"`. -/
def idMatchLeg : Leg :=
  { departure_airport := some ⟨some "BOM", none, none⟩
    arrival_airport := none, airline := none, flight_number := none, duration := none }

/-- A fully populated stub leg from `"BOM"` to `"DEL"`. -/
def stubLeg : Leg :=
  { departure_airport := some ⟨some "BOM", some "Mumbai", some "10:00"⟩
    arrival_airport := some ⟨some "DEL", some "Delhi", some "12:00"⟩
    airline := some "IndiGo", flight_number := some "6E123", duration := some 120 }

/-- A valid parameter bag for a one-way BOM→DEL search. -/
def stubParams : SearchParams :=
  ⟨some "BOM", some "DEL", some "2026-01-15", none⟩

/-- Provider data whose single best itinerary has an empty legs list. -/
def skipData : ProviderData :=
  { best_flights := some [⟨some [], none⟩], other_flights := none, price_insights := none }

/-- Provider data with one well-formed single-leg best itinerary. -/
def stubData : ProviderData :=
  { best_flights := some [⟨some [stubLeg], some 5000⟩]
    other_flights := none, price_insights := none }

/-- A valid parameter bag for a round-trip BOM→DEL search. -/
def roundTripParams : SearchParams :=
  ⟨some "BOM", some "DEL", some "2026-01-15", some "2026-01-20"⟩

/-! ### Helper lemmas -/

/-- `find?` either returns the first element satisfying `p` — splitting the
list around it — or returns `none` when no element satisfies `p`. -/
theorem find_first_split (p : α → Bool) :
    ∀ l : List α,
      (∃ x pre post, l.find? p = some x ∧ l = pre ++ x :: post ∧ p x = true ∧
        ∀ y ∈ pre, p y = false) ∨
      (l.find? p = none ∧ ∀ y ∈ l, p y = false)
  | [] => Or.inr ⟨rfl, by simp⟩
  | a :: l => by
    by_cases h : p a
    · exact Or.inl ⟨a, [], l, by simp [List.find?, h], by simp, h, by simp⟩
    · rcases find_first_split p l with ⟨x, pre, post, hfind, hsplit, hx, hpre⟩ | ⟨hfind, hall⟩
      · refine Or.inl ⟨x, a :: pre, post, ?_, by simp [hsplit], hx, ?_⟩
        · simpa [List.find?, h] using hfind
        · intro y hy
          rcases List.mem_cons.1 hy with rfl | hy
          · simpa using h
          · exact hpre y hy
      · refine Or.inr ⟨by simpa [List.find?, h] using hfind, ?_⟩
        intro y hy
        rcases List.mem_cons.1 hy with rfl | hy
        · simpa using h
        · exact hall y hy

/-- A surfaced record carries the tag it was built with. -/
theorem itinToFlight_ftype {tag origin destination : String} {rt : Bool}
    {it : Itinerary} {f : FlightData}
    (h : itinToFlight tag origin destination rt it = some f) : f.ftype = tag := by
  unfold itinToFlight at h
  rcases hl : it.flights with _ | ⟨_ | ⟨leg0, rest⟩⟩ <;> rw [hl] at h
  · exact absurd h (by simp)
  · exact absurd h (by simp)
  · by_cases hc : (rt && decide ((leg0 :: rest).length ≥ 2)) = true
    · simp only [hc, if_true] at h
      cases h; rfl
    · simp only [Bool.not_eq_true] at hc
      simp only [hc, Bool.false_eq_true, if_false] at h
      cases h; rfl

/-- The leg selected by the outbound `find`-with-fallback is a member of a
non-empty legs list. -/
theorem findOutboundLeg_mem (origin : String) (legs : List Leg) (h : legs ≠ []) :
    findOutboundLeg origin legs ∈ legs := by
  unfold findOutboundLeg
  cases hf : legs.find? (outboundPred origin) with
  | some l => simpa using List.mem_of_find?_eq_some hf
  | none =>
    cases legs with
    | nil => exact absurd rfl h
    | cons a l => simp [List.headD]

/-- The response transform is the tag-`"best"` transform of the whole
`best_flights` list followed by the tag-`"other"` transform of the first
five `other_flights` entries, both in provider order. -/
theorem parseFlights_eq (origin destination : String) (rt : Bool) (data : ProviderData) :
    parseFlights origin destination rt data =
      (data.best_flights.getD []).filterMap (itinToFlight "best" origin destination rt) ++
      ((data.other_flights.getD []).take 5).filterMap
        (itinToFlight "other" origin destination rt) := by
  unfold parseFlights
  congr 1
  · cases data.best_flights with
    | none => rfl
    | some l =>
      cases l with
      | nil => rfl
      | cons a t => simp
  · cases data.other_flights with
    | none => rfl
    | some l =>
      cases l with
      | nil => rfl
      | cons a t => simp

/-! ### C1 -/

/-- C1: for every search request in which `origin`, `destination` or
`departure_date` is missing or empty, `searchFlights` returns a failure
envelope (`success:false` with a descriptive error) and the upstream
provider is never contacted: the outbound-call component of the result is
`none`. -/
theorem C1_missing_params_fail_no_call (apiKey : Option String) (p : SearchParams)
    (provider : Except AxiosErr ProviderData)
    (h : jsMissing p.origin = true ∨ jsMissing p.destination = true ∨
         jsMissing p.departure_date = true) :
    (searchFlights apiKey p provider).1 = none ∧
    (searchFlights apiKey p provider).2.success = false ∧
    (searchFlights apiKey p provider).2.error =
      some "Missing required parameters: origin, destination, or departure_date" := by
  have hc : (jsMissing p.origin || jsMissing p.destination ||
      jsMissing p.departure_date) = true := by
    rcases h with h | h | h <;> simp [h]
  unfold searchFlights
  simp [hc, missingParamsResult]

/-- Witness for C1 at a request with an absent origin. -/
theorem C1_witness :
    jsMissing (SearchParams.mk none (some "DEL") (some "2026-01-15") none).origin = true ∧
    (searchFlights (some "KEY") (SearchParams.mk none (some "DEL") (some "2026-01-15") none)
        (Except.ok stubData)).1 = none ∧
    (searchFlights (some "KEY") (SearchParams.mk none (some "DEL") (some "2026-01-15") none)
        (Except.ok stubData)).2.success = false ∧
    (searchFlights (some "KEY") (SearchParams.mk none (some "DEL") (some "2026-01-15") none)
        (Except.ok stubData)).2.error =
      some "Missing required parameters: origin, destination, or departure_date" :=
  ⟨by decide,
   C1_missing_params_fail_no_call (some "KEY")
     (SearchParams.mk none (some "DEL") (some "2026-01-15") none)
     (Except.ok stubData) (Or.inl (by decide))⟩

/-! ### C2 -/

/-- C2 counterexample: the claim asserts that under a round-trip-classified
search an itinerary with `n` legs reports `stops = n - 2`.  At the concrete
input `oneLegItin` (one leg, round-trip classification) the code reports
`stops = 0`, while the claim demands `1 - 2 = -1`. -/
theorem C2_counterexample :
    (itinToFlight "best" "BOM" "DEL" true oneLegItin).map FlightData.stops = some 0 ∧
    ¬ ((0 : Int) = (1 : Int) - 2) := by
  constructor
  · decide
  · decide

/-- C2 amended: a surfaced itinerary with `n` legs reports `stops = n - 2`
when the search is round-trip-classified AND the itinerary has at least two
legs; in every other case (one-way classification, or a round-trip-classified
search whose itinerary has a single leg) it reports `stops = n - 1`. -/
theorem C2_amended_stops (tag origin destination : String) (rt : Bool)
    (it : Itinerary) (legs : List Leg)
    (hl : it.flights = some legs) (hne : legs ≠ []) :
    (itinToFlight tag origin destination rt it).map FlightData.stops =
      some (if rt = true ∧ 2 ≤ legs.length then (legs.length : Int) - 2
            else (legs.length : Int) - 1) := by
  cases legs with
  | nil => exact absurd rfl hne
  | cons leg0 rest =>
    unfold itinToFlight
    rw [hl]
    by_cases hrt : rt = true
    · by_cases hlen : 1 ≤ rest.length
      · have h2 : 2 ≤ (leg0 :: rest).length := by
          simp only [List.length_cons]
          omega
        simp [hrt, h2, hlen]
      · have h2 : ¬ (2 ≤ (leg0 :: rest).length) := by
          simp only [List.length_cons]
          omega
        simp [hrt, h2, hlen]
    · simp [hrt]

/-- Witness for C2 amended at the one-leg round-trip-classified itinerary. -/
theorem C2_amended_witness :
    oneLegItin.flights = some [blankLeg] ∧ ([blankLeg] : List Leg) ≠ [] ∧
    (itinToFlight "best" "BOM" "DEL" true oneLegItin).map FlightData.stops =
      some (if true = true ∧ 2 ≤ ([blankLeg] : List Leg).length
            then (([blankLeg] : List Leg).length : Int) - 2
            else (([blankLeg] : List Leg).length : Int) - 1) :=
  ⟨rfl, by decide,
   C2_amended_stops "best" "BOM" "DEL" true oneLegItin [blankLeg] rfl (by decide)⟩

/-! ### C3 -/

/-- C3: a request is classified round-trip iff `return_date` is present
(and not JSON `null`: both map to an absent `Option`), not the literal
string `"null"`, and not blank after trimming; in every other case it is
classified one-way. -/
theorem C3_roundtrip_classification (rd : Option String) :
    isRoundTripOf rd = true ↔ ∃ s, rd = some s ∧ s ≠ "null" ∧ jsTrim s ≠ "" := by
  cases rd with
  | none => simp [isRoundTripOf]
  | some s =>
    simp only [isRoundTripOf, Option.some.injEq, exists_eq_left']
    by_cases h1 : s = ""
    · subst h1
      have ht : jsTrim "" = "" := by decide
      simp [ht]
    · by_cases h2 : s = "null"
      · subst h2
        simp
      · simp [h1, h2]

/-! ### C4 -/

/-- C4: the surfaced result is unchanged when the provider's
`other_flights` list is truncated to its first five entries — no itinerary
at index 5 or beyond ever appears in the output — and the number of
records tagged `"other"` is at most 5. -/
theorem C4_other_flights_capped (origin destination : String) (rt : Bool)
    (data : ProviderData) :
    parseFlights origin destination rt
      { data with other_flights := data.other_flights.map (fun l => l.take 5) } =
      parseFlights origin destination rt data ∧
    ((parseFlights origin destination rt data).filter
      (fun (f : FlightData) => f.ftype == "other")).length ≤ 5 := by
  constructor
  · rw [parseFlights_eq, parseFlights_eq]
    congr 2
    cases data.other_flights with
    | none => rfl
    | some l => simp [List.take_take]
  · rw [parseFlights_eq, List.filter_append]
    have hb : ((data.best_flights.getD []).filterMap
        (itinToFlight "best" origin destination rt)).filter
        (fun (f : FlightData) => f.ftype == "other") = [] := by
      rw [List.filter_eq_nil_iff]
      intro f hf
      obtain ⟨it, _, hit⟩ := List.mem_filterMap.1 hf
      have hft := itinToFlight_ftype hit
      simp [hft]
    rw [hb]
    simp only [List.length_append, List.length_nil, Nat.zero_add]
    calc ((((data.other_flights.getD []).take 5).filterMap
            (itinToFlight "other" origin destination rt)).filter
            (fun (f : FlightData) => f.ftype == "other")).length
        ≤ (((data.other_flights.getD []).take 5).filterMap
            (itinToFlight "other" origin destination rt)).length :=
          List.length_filter_le _ _
      _ ≤ ((data.other_flights.getD []).take 5).length := List.length_filterMap_le _ _
      _ ≤ 5 := List.length_take_le _ _

/-! ### C5 -/

/-- C5: with all required fields present but no API key configured,
`searchFlights` returns a failure envelope with the configuration-error
message and no outbound call is made (the call component is `none`); the
function is total, so no exception is thrown. -/
theorem C5_no_key_fail_no_call (apiKey : Option String) (p : SearchParams)
    (provider : Except AxiosErr ProviderData)
    (ho : jsMissing p.origin = false) (hd : jsMissing p.destination = false)
    (hdd : jsMissing p.departure_date = false) (hk : jsMissing apiKey = true) :
    (searchFlights apiKey p provider).1 = none ∧
    (searchFlights apiKey p provider).2.success = false ∧
    (searchFlights apiKey p provider).2.error = some "SERP_API_KEY not configured" ∧
    (searchFlights apiKey p provider).2.fallback_message =
      some "MCP server configuration error - API key missing" := by
  unfold searchFlights
  simp [ho, hd, hdd, hk, noKeyResult]

/-- Witness for C5: a complete request with no key configured. -/
theorem C5_witness :
    jsMissing stubParams.origin = false ∧ jsMissing stubParams.destination = false ∧
    jsMissing stubParams.departure_date = false ∧ jsMissing (none : Option String) = true ∧
    (searchFlights none stubParams (Except.ok stubData)).1 = none ∧
    (searchFlights none stubParams (Except.ok stubData)).2.success = false ∧
    (searchFlights none stubParams (Except.ok stubData)).2.error =
      some "SERP_API_KEY not configured" ∧
    (searchFlights none stubParams (Except.ok stubData)).2.fallback_message =
      some "MCP server configuration error - API key missing" := by
  refine ⟨by decide, by decide, by decide, by decide, ?_⟩
  exact C5_no_key_fail_no_call none stubParams (Except.ok stubData)
    (by decide) (by decide) (by decide) (by decide)

/-! ### C6 -/

/-- C6: every output field drawn from a leg is total with a textual
default — a missing airline surfaces `"Unknown"`; a missing flight number,
duration, departure time or arrival time surfaces `"N/A"` (both in the
`outbound`/`return` sub-records built by `legRecord` and in the top-level
fields of a surfaced record); a missing itinerary price surfaces `"N/A"`.
All output fields are total `String`/`SVal` values by construction, so no
absent field ever surfaces `null`/`undefined` or raises an exception. -/
theorem C6_field_defaults (dDef aDef tag origin destination : String) (rt : Bool)
    (leg : Leg) (it : Itinerary) (legs : List Leg)
    (hl : it.flights = some legs) (hne : legs ≠ [])
    (hp : it.price = none)
    (hair : leg.airline = none) (hfn : leg.flight_number = none)
    (hdur : leg.duration = none)
    (hdt : leg.departure_airport.bind Airport.time = none)
    (hat : leg.arrival_airport.bind Airport.time = none)
    (hall : ∀ l ∈ legs, l.airline = none ∧ l.flight_number = none) :
    (legRecord dDef aDef leg).airline = "Unknown" ∧
    (legRecord dDef aDef leg).flight_number = "N/A" ∧
    (legRecord dDef aDef leg).duration = SVal.s "N/A" ∧
    (legRecord dDef aDef leg).departure_time = "N/A" ∧
    (legRecord dDef aDef leg).arrival_time = "N/A" ∧
    (itinToFlight tag origin destination rt it).map FlightData.price = some (SVal.s "N/A") ∧
    (itinToFlight tag origin destination rt it).map FlightData.airline = some "Unknown" ∧
    (itinToFlight tag origin destination rt it).map FlightData.flight_number = some "N/A" := by
  have hrec : (legRecord dDef aDef leg).airline = "Unknown" ∧
      (legRecord dDef aDef leg).flight_number = "N/A" ∧
      (legRecord dDef aDef leg).duration = SVal.s "N/A" ∧
      (legRecord dDef aDef leg).departure_time = "N/A" ∧
      (legRecord dDef aDef leg).arrival_time = "N/A" := by
    refine ⟨?_, ?_, ?_, ?_, ?_⟩ <;>
      simp [legRecord, hair, hfn, hdur, hdt, hat, jsOrStr, jsOrNat]
  cases legs with
  | nil => exact absurd rfl hne
  | cons leg0 rest =>
    have hmem : findOutboundLeg origin (leg0 :: rest) ∈ leg0 :: rest :=
      findOutboundLeg_mem origin _ (by simp)
    obtain ⟨hoba, hobf⟩ := hall _ hmem
    obtain ⟨h0a, h0f⟩ := hall leg0 (by simp)
    refine ⟨hrec.1, hrec.2.1, hrec.2.2.1, hrec.2.2.2.1, hrec.2.2.2.2, ?_, ?_, ?_⟩ <;>
      (unfold itinToFlight
       rw [hl]
       by_cases hrt : rt = true
       · by_cases hlen : 1 ≤ rest.length
         · have h2 : 2 ≤ (leg0 :: rest).length := by
             simp only [List.length_cons]
             omega
           simp [hrt, h2, hlen, hp, hoba, hobf, h0a, h0f, jsOrNat, jsOrStr]
         · have h2 : ¬ (2 ≤ (leg0 :: rest).length) := by
             simp only [List.length_cons]
             omega
           simp [hrt, h2, hlen, hp, hoba, hobf, h0a, h0f, jsOrNat, jsOrStr]
       · simp [hrt, hp, hoba, hobf, h0a, h0f, jsOrNat, jsOrStr])

/-- Witness for C6 at an all-absent leg and a one-leg itinerary. -/
theorem C6_witness :
    oneLegItin.flights = some [blankLeg] ∧ ([blankLeg] : List Leg) ≠ [] ∧
    oneLegItin.price = none ∧ blankLeg.airline = none ∧
    (∀ l ∈ ([blankLeg] : List Leg), l.airline = none ∧ l.flight_number = none) ∧
    ((legRecord "BOM" "DEL" blankLeg).airline = "Unknown" ∧
     (legRecord "BOM" "DEL" blankLeg).flight_number = "N/A" ∧
     (legRecord "BOM" "DEL" blankLeg).duration = SVal.s "N/A" ∧
     (legRecord "BOM" "DEL" blankLeg).departure_time = "N/A" ∧
     (legRecord "BOM" "DEL" blankLeg).arrival_time = "N/A" ∧
     (itinToFlight "best" "BOM" "DEL" false oneLegItin).map FlightData.price =
       some (SVal.s "N/A") ∧
     (itinToFlight "best" "BOM" "DEL" false oneLegItin).map FlightData.airline =
       some "Unknown" ∧
     (itinToFlight "best" "BOM" "DEL" false oneLegItin).map FlightData.flight_number =
       some "N/A") :=
  ⟨rfl, by decide, rfl, rfl, by decide,
   C6_field_defaults "BOM" "DEL" "best" "BOM" "DEL" false blankLeg oneLegItin [blankLeg]
     rfl (by decide) rfl rfl rfl rfl rfl rfl (by decide)⟩

/-! ### C7 -/

/-- Over legs indexed from `n ≥ 1`, the `idx > 0` guard of the return-leg
`find` is vacuous, so the search reduces to a plain `find?`. -/
theorem enumFrom_guard_find (origin destination : String) :
    ∀ (rest : List Leg) (n : Nat), 1 ≤ n →
      ((rest.enumFrom n).find?
          (fun p => decide (p.1 > 0) && returnPred origin destination p.2)).map Prod.snd =
        rest.find? (returnPred origin destination)
  | [], _, _ => rfl
  | a :: t, n, hn => by
    rw [List.enumFrom_cons]
    by_cases h : returnPred origin destination a = true
    · rw [List.find?_cons_of_pos, List.find?_cons_of_pos _ h]
      · rfl
      · simp [h]
        omega
    · rw [List.find?_cons_of_neg, List.find?_cons_of_neg]
      · exact enumFrom_guard_find origin destination t (n + 1) (by omega)
      · simpa using h
      · simp [h]

/-- On a non-empty legs list the return-leg selection searches the tail
with `returnPred` and falls back to the last leg. -/
theorem findReturnLeg_cons (origin destination : String) (leg0 : Leg) (rest : List Leg) :
    findReturnLeg origin destination (leg0 :: rest) =
      (rest.find? (returnPred origin destination)).getD ((leg0 :: rest).getLastD default) := by
  unfold findReturnLeg
  rw [List.enum_cons, List.find?_cons_of_neg]
  · have h := enumFrom_guard_find origin destination rest 1 (by omega)
    cases hf : (rest.enumFrom 1).find?
        (fun p => decide (p.1 > 0) && returnPred origin destination p.2) with
    | none =>
      rw [hf] at h
      rw [← h]
      rfl
    | some p =>
      rw [hf] at h
      simp only [Option.map_some'] at h
      rw [← h]
      rfl
  · simp

/-- The outbound-leg matching rule exactly as the claim words it: the leg's
departure airport code equals the requested origin (no name matching). -/
def specOutboundPred (origin : String) (leg : Leg) : Bool :=
  match leg.departure_airport with
  | some a => (match a.id with | some i => i = origin | none => false)
  | none => false

/-- The outbound-leg selection exactly as the claim words it: first leg
whose departure airport code equals the requested origin, falling back to
the first leg of the list. -/
def specOutboundLeg (origin : String) (legs : List Leg) : Leg :=
  (legs.find? (specOutboundPred origin)).getD (legs.headD default)

/-- C7 counterexample: the code's outbound `find` also matches on the
departure airport NAME containing the origin
(`leg.departure_airport?.name?.includes(origin)`, src/server.js:193), which
the claim omits.  With origin `"BOM"` and legs
`[nameMatchLeg (id "DEL", name "BOM Intl"), idMatchLeg (id "BOM")]`, the
code selects `nameMatchLeg` while the claim's rule selects `idMatchLeg`. -/
theorem C7_counterexample :
    findOutboundLeg "BOM" [nameMatchLeg, idMatchLeg] = nameMatchLeg ∧
    specOutboundLeg "BOM" [nameMatchLeg, idMatchLeg] = idMatchLeg ∧
    nameMatchLeg ≠ idMatchLeg := by
  decide

/-- C7 amended: on a non-empty legs list the outbound leg is the first leg
whose departure airport code equals the origin OR whose departure airport
name contains the origin, falling back to the first leg; the return leg is
the first leg at index greater than zero whose departure airport code
equals the destination, whose arrival airport code equals the origin, OR
whose departure airport name contains the destination, falling back to the
last leg. -/
theorem C7_amended_leg_selection (origin destination : String) (legs : List Leg)
    (leg0 : Leg) (rest : List Leg) (hcons : legs = leg0 :: rest) :
    ((∃ pre post, legs = pre ++ findOutboundLeg origin legs :: post ∧
        outboundPred origin (findOutboundLeg origin legs) = true ∧
        ∀ l ∈ pre, outboundPred origin l = false) ∨
     ((∀ l ∈ legs, outboundPred origin l = false) ∧
        findOutboundLeg origin legs = leg0)) ∧
    ((∃ pre post, rest = pre ++ findReturnLeg origin destination legs :: post ∧
        returnPred origin destination (findReturnLeg origin destination legs) = true ∧
        ∀ l ∈ pre, returnPred origin destination l = false) ∨
     ((∀ l ∈ rest, returnPred origin destination l = false) ∧
        findReturnLeg origin destination legs = legs.getLastD default)) := by
  subst hcons
  constructor
  · rcases find_first_split (outboundPred origin) (leg0 :: rest) with
      ⟨x, pre, post, hfind, hsplit, hx, hpre⟩ | ⟨hfind, hall⟩
    · left
      refine ⟨pre, post, ?_, ?_, hpre⟩
      · rw [findOutboundLeg, hfind]
        exact hsplit
      · rw [findOutboundLeg, hfind]
        exact hx
    · right
      refine ⟨hall, ?_⟩
      rw [findOutboundLeg, hfind]
      rfl
  · rw [findReturnLeg_cons]
    rcases find_first_split (returnPred origin destination) rest with
      ⟨x, pre, post, hfind, hsplit, hx, hpre⟩ | ⟨hfind, hall⟩
    · left
      refine ⟨pre, post, ?_, ?_, hpre⟩
      · rw [hfind]
        exact hsplit
      · rw [hfind]
        exact hx
    · right
      refine ⟨hall, ?_⟩
      rw [hfind]
      rfl

/-- Witness for C7 amended at the two-leg list of the counterexample. -/
theorem C7_amended_witness :
    ([nameMatchLeg, idMatchLeg] : List Leg) = nameMatchLeg :: [idMatchLeg] ∧
    (((∃ pre post, ([nameMatchLeg, idMatchLeg] : List Leg) =
          pre ++ findOutboundLeg "BOM" [nameMatchLeg, idMatchLeg] :: post ∧
        outboundPred "BOM" (findOutboundLeg "BOM" [nameMatchLeg, idMatchLeg]) = true ∧
        ∀ l ∈ pre, outboundPred "BOM" l = false) ∨
      ((∀ l ∈ ([nameMatchLeg, idMatchLeg] : List Leg), outboundPred "BOM" l = false) ∧
        findOutboundLeg "BOM" [nameMatchLeg, idMatchLeg] = nameMatchLeg)) ∧
     ((∃ pre post, ([idMatchLeg] : List Leg) =
          pre ++ findReturnLeg "BOM" "DEL" [nameMatchLeg, idMatchLeg] :: post ∧
        returnPred "BOM" "DEL" (findReturnLeg "BOM" "DEL" [nameMatchLeg, idMatchLeg]) = true ∧
        ∀ l ∈ pre, returnPred "BOM" "DEL" l = false) ∨
      ((∀ l ∈ ([idMatchLeg] : List Leg), returnPred "BOM" "DEL" l = false) ∧
        findReturnLeg "BOM" "DEL" [nameMatchLeg, idMatchLeg] =
          ([nameMatchLeg, idMatchLeg] : List Leg).getLastD default))) :=
  ⟨rfl, C7_amended_leg_selection "BOM" "DEL" [nameMatchLeg, idMatchLeg]
    nameMatchLeg [idMatchLeg] rfl⟩

/-! ### C8 -/

/-- C8: for every request that reaches the upstream call (required fields
present, key configured), the outbound query carries a `return_date` key
iff the request was classified round-trip; a one-way classification sends
a query with no `return_date` key. -/
theorem C8_return_date_iff_roundtrip (apiKey : Option String) (p : SearchParams)
    (provider : Except AxiosErr ProviderData)
    (ho : jsMissing p.origin = false) (hd : jsMissing p.destination = false)
    (hdd : jsMissing p.departure_date = false) (hk : jsMissing apiKey = false) :
    ∃ q, (searchFlights apiKey p provider).1 = some q ∧
      (q.return_date ≠ none ↔ isRoundTripOf p.return_date = true) ∧
      (isRoundTripOf p.return_date = true → q.return_date = p.return_date) ∧
      (isRoundTripOf p.return_date = false → q.return_date = none) := by
  have hrd : isRoundTripOf p.return_date = true → p.return_date ≠ none := by
    intro hrt hn
    rw [hn] at hrt
    simp [isRoundTripOf] at hrt
  unfold searchFlights
  cases provider with
  | ok data =>
    simp only [ho, hd, hdd, hk, Bool.or_self, Bool.false_or, Bool.false_eq_true, if_false]
    refine ⟨_, rfl, ?_, ?_, ?_⟩
    · by_cases hrt : isRoundTripOf p.return_date = true
      · simp [hrt, hrd hrt]
      · simp only [Bool.not_eq_true] at hrt
        simp [hrt]
    · intro hrt
      simp [hrt]
    · intro hrt
      simp [hrt]
  | error e =>
    simp only [ho, hd, hdd, hk, Bool.or_self, Bool.false_or, Bool.false_eq_true, if_false]
    refine ⟨_, rfl, ?_, ?_, ?_⟩
    · by_cases hrt : isRoundTripOf p.return_date = true
      · simp [hrt, hrd hrt]
      · simp only [Bool.not_eq_true] at hrt
        simp [hrt]
    · intro hrt
      simp [hrt]
    · intro hrt
      simp [hrt]

/-- Witness for C8 at a round-trip request with a configured key. -/
theorem C8_witness :
    jsMissing roundTripParams.origin = false ∧
    jsMissing roundTripParams.destination = false ∧
    jsMissing roundTripParams.departure_date = false ∧
    jsMissing (some "KEY" : Option String) = false ∧
    (∃ q, (searchFlights (some "KEY") roundTripParams (Except.ok stubData)).1 = some q ∧
      (q.return_date ≠ none ↔ isRoundTripOf roundTripParams.return_date = true) ∧
      (isRoundTripOf roundTripParams.return_date = true →
        q.return_date = roundTripParams.return_date) ∧
      (isRoundTripOf roundTripParams.return_date = false → q.return_date = none)) :=
  ⟨by decide, by decide, by decide, by decide,
   C8_return_date_iff_roundtrip (some "KEY") roundTripParams (Except.ok stubData)
     (by decide) (by decide) (by decide) (by decide)⟩

/-! ### C9 -/

/-- C9: every successful result's `flights` array is the ordered transform
of the provider's `best_flights` list followed by the ordered transform of
the first five `other_flights` entries — so every record tagged `"best"`
precedes every record tagged `"other"`, the relative order within each
group follows the provider's list order (`filterMap` preserves it), and
`total_results` equals the length of the `flights` array. -/
theorem C9_best_before_other_total (apiKey : Option String) (p : SearchParams)
    (data : ProviderData)
    (ho : jsMissing p.origin = false) (hd : jsMissing p.destination = false)
    (hdd : jsMissing p.departure_date = false) (hk : jsMissing apiKey = false) :
    (searchFlights apiKey p (Except.ok data)).2.success = true ∧
    (searchFlights apiKey p (Except.ok data)).2.flights =
      (data.best_flights.getD []).filterMap
        (itinToFlight "best" (p.origin.getD "") (p.destination.getD "")
          (isRoundTripOf p.return_date)) ++
      ((data.other_flights.getD []).take 5).filterMap
        (itinToFlight "other" (p.origin.getD "") (p.destination.getD "")
          (isRoundTripOf p.return_date)) ∧
    (∀ f ∈ (data.best_flights.getD []).filterMap
        (itinToFlight "best" (p.origin.getD "") (p.destination.getD "")
          (isRoundTripOf p.return_date)), f.ftype = "best") ∧
    (∀ f ∈ ((data.other_flights.getD []).take 5).filterMap
        (itinToFlight "other" (p.origin.getD "") (p.destination.getD "")
          (isRoundTripOf p.return_date)), f.ftype = "other") ∧
    (searchFlights apiKey p (Except.ok data)).2.total_results =
      some (searchFlights apiKey p (Except.ok data)).2.flights.length := by
  refine ⟨?_, ?_, ?_, ?_, ?_⟩
  · unfold searchFlights
    simp [ho, hd, hdd, hk]
  · unfold searchFlights
    simp only [ho, hd, hdd, hk, Bool.or_self, Bool.false_or, Bool.false_eq_true, if_false]
    exact parseFlights_eq _ _ _ _
  · intro f hf
    obtain ⟨it, _, hit⟩ := List.mem_filterMap.1 hf
    exact itinToFlight_ftype hit
  · intro f hf
    obtain ⟨it, _, hit⟩ := List.mem_filterMap.1 hf
    exact itinToFlight_ftype hit
  · unfold searchFlights
    simp [ho, hd, hdd, hk]

/-- Witness for C9 at a one-way request over the stub provider data. -/
theorem C9_witness :
    jsMissing stubParams.origin = false ∧ jsMissing (some "KEY" : Option String) = false ∧
    ((searchFlights (some "KEY") stubParams (Except.ok stubData)).2.success = true ∧
     (searchFlights (some "KEY") stubParams (Except.ok stubData)).2.flights =
       (stubData.best_flights.getD []).filterMap
         (itinToFlight "best" (stubParams.origin.getD "") (stubParams.destination.getD "")
           (isRoundTripOf stubParams.return_date)) ++
       ((stubData.other_flights.getD []).take 5).filterMap
         (itinToFlight "other" (stubParams.origin.getD "") (stubParams.destination.getD "")
           (isRoundTripOf stubParams.return_date)) ∧
     (∀ f ∈ (stubData.best_flights.getD []).filterMap
         (itinToFlight "best" (stubParams.origin.getD "") (stubParams.destination.getD "")
           (isRoundTripOf stubParams.return_date)), f.ftype = "best") ∧
     (∀ f ∈ ((stubData.other_flights.getD []).take 5).filterMap
         (itinToFlight "other" (stubParams.origin.getD "") (stubParams.destination.getD "")
           (isRoundTripOf stubParams.return_date)), f.ftype = "other") ∧
     (searchFlights (some "KEY") stubParams (Except.ok stubData)).2.total_results =
       some (searchFlights (some "KEY") stubParams (Except.ok stubData)).2.flights.length) :=
  ⟨by decide, by decide,
   C9_best_before_other_total (some "KEY") stubParams stubData
     (by decide) (by decide) (by decide) (by decide)⟩

/-! ### C10 -/

/-- C10: an itinerary whose legs list is absent or empty contributes no
record to the output (the transform is total, so no exception is raised);
consequently `total_results` can be strictly smaller than the number of
itineraries the provider returned, as at the concrete `skipData` where the
provider returns one itinerary but `total_results` is `0`. -/
theorem C10_empty_legs_skipped (tag origin destination : String) (rt : Bool)
    (it : Itinerary)
    (h : it.flights = none ∨ it.flights = some []) :
    itinToFlight tag origin destination rt it = none ∧
    (searchFlights (some "KEY") stubParams (Except.ok skipData)).2.success = true ∧
    (searchFlights (some "KEY") stubParams (Except.ok skipData)).2.total_results = some 0 ∧
    (skipData.best_flights.getD []).length = 1 := by
  refine ⟨?_, by decide, by decide, by decide⟩
  unfold itinToFlight
  rcases h with h | h <;> rw [h]

/-- Witness for C10 at an itinerary with an absent legs list. -/
theorem C10_witness :
    ((Itinerary.mk none none).flights = none ∨ (Itinerary.mk none none).flights = some []) ∧
    (itinToFlight "best" "BOM" "DEL" false (Itinerary.mk none none) = none ∧
     (searchFlights (some "KEY") stubParams (Except.ok skipData)).2.success = true ∧
     (searchFlights (some "KEY") stubParams (Except.ok skipData)).2.total_results = some 0 ∧
     (skipData.best_flights.getD []).length = 1) :=
  ⟨Or.inl rfl,
   C10_empty_legs_skipped "best" "BOM" "DEL" false (Itinerary.mk none none) (Or.inl rfl)⟩

end FlightRelay
